import Mathlib

/-!
Verification of the plantation-management backend's domain logic.

The definitions below are a shallow embedding of the JavaScript source:

* `backend/models/PlantLot.js` — Mongoose schema for plant lots, with the
  instance methods `getDaysFromPlanting`, `addGrowthMeasurement`,
  `isReadyForHarvest` and the static `findReadyForHarvest`, plus the
  `PlantSpecies` schemas in the same bundle.
* `backend/controllers/lotController.js` — `createLot` and `deleteLot`.
* the QR controller — `generateLotQRCode` payload construction,
  `generateBatchQRCodes`, `generateLotInfoQRCode`.

Modelling conventions: timestamps are integer milliseconds since the epoch
(JavaScript `Date` values are integral milliseconds); JavaScript numbers that
carry measurements (heights, diameters) are `Rat`; Mongo object ids are `Nat`;
fallible operations return `Except`; the database is an explicit list of
documents threaded through each controller.  The qrcode/JSON libraries are
external collaborators: QR encoding is an oracle `String → Bool` saying
whether `QRCode.toDataURL` succeeds on a given text, and a structured JSON
value is kept alongside the serialized text so that the library's
`JSON.parse ∘ JSON.stringify` identity is field lookup on that value.
-/

/-- Growth parameters of a plant species, from the `plantSpeciesSchema`
(fields used by the lot logic and the QR payloads). -/
structure Species where
  sid : Nat
  name : String
  code : String
  minHeight : Rat
  harvestDays : Nat
  isActive : Bool
deriving Repr, DecidableEq

/-- The `minHeight`/`harvestDays` validators of `plantSpeciesSchema`:
`minHeight` min 0 with validator `value >= 0`; `harvestDays` min 1 with
validator `Number.isInteger(value) && value > 0` (integrality is carried by
the `Nat` type). -/
def speciesSchemaValid (s : Species) : Prop :=
  0 ≤ s.minHeight ∧ 1 ≤ s.harvestDays

instance (s : Species) : Decidable (speciesSchemaValid s) := by
  unfold speciesSchemaValid; infer_instance

/-- Health-status enumeration of `plantLotSchema.healthStatus`. -/
inductive HealthStatus
  | excellent | good | fair | poor | diseased | dead
deriving Repr, DecidableEq

/-- One entry of `plantLotSchema.growthMeasurements`. -/
structure GrowthMeasurement where
  height : Rat
  diameter : Option Rat
  measuredAt : Int
  measuredBy : Nat
  notes : Option String
deriving Repr, DecidableEq

/-- One entry of `plantLotSchema.healthRecords`. -/
structure HealthRecord where
  status : HealthStatus
  symptoms : List String
  treatment : Option String
  recordedAt : Int
  recordedBy : Nat
  notes : Option String
deriving Repr, DecidableEq

/-- One entry of `plantLotSchema.photos`. -/
structure Photo where
  url : String
  caption : Option String
  takenAt : Int
  takenBy : Option Nat
deriving Repr, DecidableEq

/-- The `plantLotSchema.harvestInfo` sub-document. -/
structure HarvestInfo where
  isHarvested : Bool
  harvestedDate : Option Int
  harvestedBy : Option Nat
  yieldQuantity : Option Rat
  yieldUnit : String
  quality : Option String
deriving Repr, DecidableEq

/-- A `PlantLot` document as seen by the instance methods.  `speciesId` is the
Mongoose reference after an optional `populate`: `none` models an unpopulated
(or unresolvable) reference, `some s` a resolved `PlantSpecies` document. -/
structure Lot where
  oid : Nat
  lotId : String
  speciesId : Option Species
  plantedDate : Int
  zone : String
  locationId : String
  currentHeight : Rat
  diameter : Option Rat
  healthStatus : HealthStatus
  photos : List Photo
  growthMeasurements : List GrowthMeasurement
  healthRecords : List HealthRecord
  harvestInfo : HarvestInfo
  isActive : Bool
  createdBy : Nat
  updatedAt : Int
deriving Repr, DecidableEq

/-- `plantLotSchema.methods.getDaysFromPlanting`:
`Math.floor((now - plantedDate) / (1000 * 60 * 60 * 24))`, with both dates in
milliseconds.  `Math.floor` of the real quotient is floor division (`fdiv`). -/
def getDaysFromPlanting (now plantedDate : Int) : Int :=
  Int.fdiv (now - plantedDate) (1000 * 60 * 60 * 24)

/-- `plantLotSchema.methods.addGrowthMeasurement(height, diameter, measuredBy,
notes)`: pushes one measurement with `measuredAt = new Date()`, sets
`currentHeight = height`, sets `diameter` only when the argument is not
`undefined`, then saves (the pre-save hook sets `updatedAt`). -/
def addGrowthMeasurement (lot : Lot) (height : Rat) (diameter : Option Rat)
    (measuredBy : Nat) (notes : Option String) (now : Int) : Lot :=
  { lot with
    growthMeasurements := lot.growthMeasurements ++
      [{ height := height, diameter := diameter, measuredAt := now,
         measuredBy := measuredBy, notes := notes }],
    currentHeight := height,
    diameter := match diameter with
      | some d => some d
      | none => lot.diameter,
    updatedAt := now }

/-- `plantLotSchema.methods.isReadyForHarvest`: throws
`'Species information is required. Please populate speciesId.'` when
`!this.speciesId || !this.speciesId.harvestDays || !this.speciesId.minHeight`
(a numeric field is falsy exactly when it is `0`), otherwise returns
`daysFromPlanting >= harvestDays && currentHeight >= minHeight`. -/
def isReadyForHarvest (lot : Lot) (now : Int) : Except String Bool :=
  match lot.speciesId with
  | none => .error "Species information is required. Please populate speciesId."
  | some s =>
    if s.harvestDays = 0 ∨ s.minHeight = 0 then
      .error "Species information is required. Please populate speciesId."
    else
      .ok (decide ((s.harvestDays : Int) ≤ getDaysFromPlanting now lot.plantedDate
          ∧ s.minHeight ≤ lot.currentHeight))

/-- The per-lot predicate inside `plantLotSchema.statics.findReadyForHarvest`:
`try { return lot.isReadyForHarvest(); } catch (error) { return false; }`. -/
def readinessOrFalse (lot : Lot) (now : Int) : Bool :=
  match isReadyForHarvest lot now with
  | .ok b => b
  | .error _ => false

/-- `plantLotSchema.statics.findReadyForHarvest`: `find({ isActive: true })`,
populate each species, keep the lots whose `isReadyForHarvest` returns true,
treating a thrown error as `false`. -/
def findReadyForHarvest (lots : List Lot) (now : Int) : List Lot :=
  (lots.filter (fun lot => lot.isActive)).filter
    (fun lot => readinessOrFalse lot now)

/-! ## Lot controller (`backend/controllers/lotController.js`)

The controller stores a raw species reference (an object id) in the lot
document, so its view of a lot is `StoredLot`; the database is the pair of the
species and lot collections. -/

/-- A `PlantLot` document as persisted by the controller: `speciesRef` is the
raw `speciesId` ObjectId reference. -/
structure StoredLot where
  oid : Nat
  lotId : String
  speciesRef : Nat
  plantedDate : Int
  zone : String
  locationId : String
  currentHeight : Rat
  diameter : Option Rat
  healthStatus : HealthStatus
  createdBy : Nat
deriving Repr, DecidableEq

/-- The two collections the lot controller touches. -/
structure DB where
  species : List Species
  lots : List StoredLot
deriving Repr, DecidableEq

/-- The distinct error responses of the lot controller: 404 `'Plant species
not found'`, 400 `'Lot ID already exists'` (the duplicate-unique-key conflict),
404 `'Plant lot not found'`, 403 `'Access denied. Only managers can delete
plant lots'`. -/
inductive LotError
  | speciesNotFound
  | duplicateLotId
  | lotNotFound
  | notManager
deriving Repr, DecidableEq

/-- The role enumeration of `userSchema.role`. -/
inductive Role
  | manager | field | analyst
deriving Repr, DecidableEq

/-- `PlantSpecies.findById(speciesId)`. -/
def findSpeciesById (db : DB) (sid : Nat) : Option Species :=
  db.species.find? (fun s => s.sid = sid)

/-- `PlantLot.findOne({ lotId })`. -/
def findLotByLotId (db : DB) (code : String) : Option StoredLot :=
  db.lots.find? (fun l => l.lotId = code)

/-- `PlantLot.findById(id)`. -/
def findLotById (db : DB) (oid : Nat) : Option StoredLot :=
  db.lots.find? (fun l => l.oid = oid)

/-- The request body of `POST /api/lots` (fields destructured by
`createLot`). -/
structure CreateLotRequest where
  lotId : String
  speciesId : Nat
  plantedDate : Int
  zone : String
  locationId : String
  currentHeight : Rat
  diameter : Option Rat
  healthStatus : HealthStatus
deriving Repr, DecidableEq

/-- `lotController.createLot`: verify the species exists (404 if not), check
the lot id is not taken (400 if it is), then `PlantLot.create` with
`createdBy = req.user.id`.  Returns the response together with the database
after the call. -/
def createLot (db : DB) (req : CreateLotRequest) (actor : Nat) (newOid : Nat) :
    Except LotError StoredLot × DB :=
  match findSpeciesById db req.speciesId with
  | none => (.error .speciesNotFound, db)
  | some _ =>
    match findLotByLotId db req.lotId with
    | some _ => (.error .duplicateLotId, db)
    | none =>
      let lot : StoredLot :=
        { oid := newOid, lotId := req.lotId, speciesRef := req.speciesId,
          plantedDate := req.plantedDate, zone := req.zone,
          locationId := req.locationId, currentHeight := req.currentHeight,
          diameter := req.diameter, healthStatus := req.healthStatus,
          createdBy := actor }
      (.ok lot, { db with lots := db.lots ++ [lot] })

/-- `lotController.deleteLot`: 404 when the lot does not resolve, 403 when
`req.user.role !== 'manager'`, otherwise `PlantLot.findByIdAndDelete`. -/
def deleteLot (db : DB) (oid : Nat) (role : Role) : Except LotError Unit × DB :=
  match findLotById db oid with
  | none => (.error .lotNotFound, db)
  | some _ =>
    if role ≠ Role.manager then
      (.error .notManager, db)
    else
      (.ok (), { db with lots := db.lots.filter (fun l => ¬ l.oid = oid) })

/-! ## QR controller

`generateLotQRCode` builds the `qrData` object, `JSON.stringify`s it and hands
the text to the qrcode library; `generateLotInfoQRCode` hands the bare lookup
URL to the library; `generateBatchQRCodes` validates the request body, loads
the matching lots and encodes each in turn, catching per-item encoding
errors. -/

/-- The `qrData` object of `generateLotQRCode` / `generateBatchQRCodes`. -/
structure QrData where
  lotId : String
  speciesName : String
  speciesCode : String
  plantedDate : Int
  zone : String
  locationId : String
  url : String
deriving Repr, DecidableEq

/-- The lookup URL interpolation
`` `${req.protocol}://${req.get('host')}/api/lots/${lot._id}` `` used for the
`url` field of `qrData`. -/
def lotUrl (protocol host : String) (lot : Lot) : String :=
  protocol ++ "://" ++ host ++ "/api/lots/" ++ toString lot.oid

/-- The `qrData` payload built from a lot and its populated species. -/
def qrData (protocol host : String) (lot : Lot) (s : Species) : QrData :=
  { lotId := lot.lotId, speciesName := s.name, speciesCode := s.code,
    plantedDate := lot.plantedDate, zone := lot.zone,
    locationId := lot.locationId, url := lotUrl protocol host lot }

/-- A JSON value as produced for the fields of `qrData` (strings and the
numeric timestamp). -/
inductive JVal
  | jstr (s : String)
  | jnum (n : Int)
deriving Repr, DecidableEq

/-- The JSON object `JSON.stringify` serializes for `qrData`, as an ordered
field list (JavaScript object-literal key order). -/
def qrDataJson (d : QrData) : List (String × JVal) :=
  [("lotId", .jstr d.lotId), ("speciesName", .jstr d.speciesName),
   ("speciesCode", .jstr d.speciesCode), ("plantedDate", .jnum d.plantedDate),
   ("zone", .jstr d.zone), ("locationId", .jstr d.locationId),
   ("url", .jstr d.url)]

/-- Reading one field back out of a parsed JSON object
(`JSON.parse(text).key`). -/
def jsonLookup (key : String) (obj : List (String × JVal)) : Option JVal :=
  (obj.find? (fun kv => kv.1 = key)).map (fun kv => kv.2)

/-- `JSON.stringify`'s escaping of a string character (the payload fields are
plain text, so only the quote and the backslash need escaping). -/
def jsonEscapeChar (c : Char) : List Char :=
  if c = '\\' ∨ c = '"' then ['\\', c] else [c]

/-- `JSON.stringify`'s escaping of a whole string. -/
def jsonEscape (s : String) : String :=
  ⟨s.data.flatMap jsonEscapeChar⟩

/-- A JSON string literal: `"` ++ escaped text ++ `"`. -/
def jstrText (s : String) : String :=
  "\"" ++ jsonEscape s ++ "\""

/-- Serialization of one JSON value. -/
def serializeJVal : JVal → String
  | .jstr s => jstrText s
  | .jnum n => toString n

/-- `JSON.stringify` of an object given as an ordered field list. -/
def serializeObj (fields : List (String × JVal)) : String :=
  "\x7b" ++
    String.intercalate ","
      (fields.map (fun kv => jstrText kv.1 ++ ":" ++ serializeJVal kv.2)) ++
  "\x7d"

/-- The `qrCodeText` handed to the qrcode library for a lot. -/
def qrCodeTextOf (protocol host : String) (lot : Lot) (s : Species) : String :=
  serializeObj (qrDataJson (qrData protocol host lot s))

/-- The text `generateLotInfoQRCode` encodes: the bare
`` `${req.protocol}://${req.get('host')}/api/lots/${lot._id}` `` lookup URL
(line 210), with no species metadata. -/
def generateLotInfoQRText (protocol host : String) (lot : Lot) : String :=
  protocol ++ "://" ++ host ++ "/api/lots/" ++ toString lot.oid

/-- One element pushed onto `qrCodes` in `generateBatchQRCodes`: a success
`{lotId, qrCode, lotInfo}` or, when the qrcode library throws, the error
marker `{lotId, error: 'Failed to generate QR code', lotInfo}`. -/
inductive QrItem
  | success (lotId : String) (lotInfo : QrData)
  | failure (lotId : String) (lotInfo : QrData)
deriving Repr, DecidableEq

/-- The lot id carried by a batch result entry. -/
def QrItem.itemLotId : QrItem → String
  | .success l _ => l
  | .failure l _ => l

/-- Whether a batch result entry is the error marker. -/
def QrItem.isFailure : QrItem → Bool
  | .success _ _ => false
  | .failure _ _ => true

/-- The distinct responses of `generateBatchQRCodes`: the two 400 validation
responses, the 404 `'No lots found for the provided IDs'`, the 500 from the
outer catch (reached when `lot.speciesId.name` dereferences an unresolved
reference), or 200 with the `qrCodes` list. -/
inductive BatchResult
  | invalidRequest (msg : String)
  | noLotsFound
  | serverError
  | ok (items : List QrItem)
deriving Repr, DecidableEq

/-- The per-lot loop of `generateBatchQRCodes`: build `qrData`, serialize it,
try the qrcode library (`encodeOk` tells whether it succeeds on a text), push
a success or an error-marker entry.  Dereferencing an unpopulated
`lot.speciesId` throws outside the inner try, aborting the loop (the outer
catch turns this into the 500 response, modelled as `none`). -/
def buildQrItems (encodeOk : String → Bool) (protocol host : String) :
    List Lot → Option (List QrItem)
  | [] => some []
  | lot :: rest =>
    match lot.speciesId with
    | none => none
    | some s =>
      let d := qrData protocol host lot s
      let item :=
        if encodeOk (serializeObj (qrDataJson d)) then QrItem.success lot.lotId d
        else QrItem.failure lot.lotId d
      (buildQrItems encodeOk protocol host rest).map (fun items => item :: items)

/-- `generateBatchQRCodes`: reject a missing/non-array/empty `lotIds` body
(modelled as `none` or `some []`) and a list longer than 50 with a 400; load
`PlantLot.find({ lotId: { $in: lotIds } })` (the stored lots whose code is in
the request, in collection order); 404 when nothing matches; otherwise encode
the found lots one by one. -/
def generateBatchQRCodes (body : Option (List String)) (db : List Lot)
    (encodeOk : String → Bool) (protocol host : String) : BatchResult :=
  match body with
  | none => .invalidRequest "Please provide an array of lot IDs"
  | some lotIds =>
    if lotIds.length = 0 then
      .invalidRequest "Please provide an array of lot IDs"
    else if lotIds.length > 50 then
      .invalidRequest "Maximum 50 lot IDs allowed per batch"
    else
      let lots := db.filter (fun l => lotIds.contains l.lotId)
      if lots.length = 0 then
        .noLotsFound
      else
        match buildQrItems encodeOk protocol host lots with
        | none => .serverError
        | some items => .ok items

/-! ## Concrete documents used to evaluate the theorems -/

/-- An empty `harvestInfo` sub-document (schema defaults). -/
def defaultHarvestInfo : HarvestInfo :=
  { isHarvested := false, harvestedDate := none, harvestedBy := none,
    yieldQuantity := none, yieldUnit := "kg", quality := none }

/-- A species whose `minHeight` is `0` — accepted by the schema validators
(`min: 0`, `value >= 0`). -/
def zeroMinSpecies : Species :=
  { sid := 1, name := "Bamboo", code := "BMB", minHeight := 0,
    harvestDays := 90, isActive := true }

/-- A lot whose populated species is `zeroMinSpecies`; planted at epoch,
40 cm tall. -/
def zeroMinLot : Lot :=
  { oid := 11, lotId := "LOT-Z", speciesId := some zeroMinSpecies,
    plantedDate := 0, zone := "Z1", locationId := "L1", currentHeight := 40,
    diameter := none, healthStatus := .good, photos := [],
    growthMeasurements := [], healthRecords := [],
    harvestInfo := defaultHarvestInfo, isActive := true, createdBy := 1,
    updatedAt := 0 }

/-- The worked example of the spec: `{minHeight: 50, harvestDays: 90}`. -/
def exampleSpecies : Species :=
  { sid := 2, name := "Tea", code := "TEA", minHeight := 50,
    harvestDays := 90, isActive := true }

/-- The worked example of the spec: planted 91 days before evaluation time,
`currentHeight = 55`. -/
def exampleLot : Lot :=
  { oid := 12, lotId := "LOT-E", speciesId := some exampleSpecies,
    plantedDate := 0, zone := "Z1", locationId := "L1", currentHeight := 55,
    diameter := none, healthStatus := .good, photos := [],
    growthMeasurements := [], healthRecords := [],
    harvestInfo := defaultHarvestInfo, isActive := true, createdBy := 1,
    updatedAt := 0 }

/-- One recorded invocation of `addGrowthMeasurement` (its argument list plus
the server-assigned timestamp of the call). -/
structure MeasurementCall where
  height : Rat
  diameter : Option Rat
  measuredBy : Nat
  notes : Option String
  now : Int
deriving Repr, DecidableEq

/-- Replaying one recorded `addGrowthMeasurement` call. -/
def applyMeasurement (lot : Lot) (c : MeasurementCall) : Lot :=
  addGrowthMeasurement lot c.height c.diameter c.measuredBy c.notes c.now

/-- The measurement entry a recorded call appends. -/
def entryOfCall (c : MeasurementCall) : GrowthMeasurement :=
  { height := c.height, diameter := c.diameter, measuredAt := c.now,
    measuredBy := c.measuredBy, notes := c.notes }

/-! ## Theorems -/

/-- C2, counterexample: a lot whose Species reference IS resolved (to a
schema-valid species with `minHeight = 0`), evaluated 10 days after planting:
the height threshold alone is met (40 ≥ 0, age 10 < 90), so the claim says
`isReadyForHarvest` returns `false`, but the method throws the
species-required error instead of returning. -/
theorem c2_counterexample :
    zeroMinLot.speciesId = some zeroMinSpecies ∧
    speciesSchemaValid zeroMinSpecies ∧
    (zeroMinSpecies.minHeight ≤ zeroMinLot.currentHeight ∧
      ¬ (zeroMinSpecies.harvestDays : Int) ≤
          getDaysFromPlanting 864000000 zeroMinLot.plantedDate) ∧
    isReadyForHarvest zeroMinLot 864000000 ≠ Except.ok false := by
  refine ⟨rfl, by decide, by decide, ?_⟩
  rw [show isReadyForHarvest zeroMinLot 864000000
      = Except.error "Species information is required. Please populate speciesId."
      from rfl]
  simp

/-- C2, amended: for every Lot whose Species reference is resolved to a
species with nonzero `harvestDays` and nonzero `minHeight`,
`isReadyForHarvest` returns `true` iff the lot's age in days is at least
`harvestDays` and `currentHeight` is at least `minHeight`, and returns
`false` whenever exactly one of the two thresholds is met. -/
theorem c2_readiness_iff_thresholds (lot : Lot) (s : Species) (now : Int)
    (hs : lot.speciesId = some s) (hd : s.harvestDays ≠ 0)
    (hm : s.minHeight ≠ 0) :
    (isReadyForHarvest lot now = .ok true ↔
      ((s.harvestDays : Int) ≤ getDaysFromPlanting now lot.plantedDate ∧
        s.minHeight ≤ lot.currentHeight)) ∧
    (Xor' ((s.harvestDays : Int) ≤ getDaysFromPlanting now lot.plantedDate)
        (s.minHeight ≤ lot.currentHeight) →
      isReadyForHarvest lot now = .ok false) := by
  have hguard : ¬ (s.harvestDays = 0 ∨ s.minHeight = 0) := by tauto
  constructor
  · simp [isReadyForHarvest, hs, hguard]
  · intro hx
    simp only [isReadyForHarvest, hs, if_neg hguard, Except.ok.injEq,
      decide_eq_false_iff_not]
    rcases hx with ⟨_, hb⟩ | ⟨_, ha⟩
    · exact fun hand => hb hand.2
    · exact fun hand => ha hand.1

/-- C2, witness at the spec's worked example: species
`{minHeight: 50, harvestDays: 90}`, lot planted 91 days earlier with
`currentHeight = 55` is ready. -/
theorem c2_readiness_witness :
    isReadyForHarvest exampleLot 7862400000 = Except.ok true :=
  (c2_readiness_iff_thresholds exampleLot exampleSpecies 7862400000 rfl
      (by decide) (by decide)).1.mpr (by decide)

/-- C3: for every planted date `d` and evaluation times `t ≤ t'` with
`d ≤ t` (all in milliseconds), `getDaysFromPlanting` equals the floor of the
elapsed seconds divided by 86400 — i.e. `floor((t − d) / 1 day)` — and is
monotonically non-decreasing as the evaluation time advances. -/
theorem c3_compute_age_floor_monotone (d t t' : Int) (_h1 : d ≤ t)
    (h2 : t ≤ t') :
    getDaysFromPlanting t d = ⌊(((t : ℚ) - (d : ℚ)) / 1000) / 86400⌋ ∧
    getDaysFromPlanting t d ≤ getDaysFromPlanting t' d := by
  have key : ∀ x : Int, Int.fdiv x (1000 * 60 * 60 * 24) =
      ⌊((x : ℚ)) / ((86400000 : ℕ) : ℚ)⌋ := by
    intro x
    rw [Rat.floor_intCast_div_natCast]
    exact Int.fdiv_eq_ediv x (by norm_num)
  constructor
  · rw [getDaysFromPlanting, key]
    congr 1
    push_cast
    rw [div_div]
    norm_num
  · rw [getDaysFromPlanting, getDaysFromPlanting,
      Int.fdiv_eq_ediv _ (by norm_num), Int.fdiv_eq_ediv _ (by norm_num)]
    exact Int.ediv_le_ediv (by norm_num) (by omega)

/-- C3, witness: ages at 10 and 11 days after an epoch planting. -/
theorem c3_compute_age_witness :
    getDaysFromPlanting 864000000 0 =
      ⌊(((864000000 : ℚ) - ((0 : Int) : ℚ)) / 1000) / 86400⌋ ∧
    getDaysFromPlanting 864000000 0 ≤ getDaysFromPlanting 950400000 0 :=
  c3_compute_age_floor_monotone 0 864000000 950400000 (by norm_num)
    (by norm_num)

/-- C4: each `addGrowthMeasurement` call appends exactly one entry to
`growthMeasurements` (the length strictly increases by 1), sets
`currentHeight` to the measured height, and replaying any sequence of calls
appends their entries in call order. -/
theorem c4_add_measurement_appends (lot : Lot) (h : Rat) (dia : Option Rat)
    (who : Nat) (notes : Option String) (now : Int)
    (calls : List MeasurementCall) :
    (addGrowthMeasurement lot h dia who notes now).growthMeasurements
      = lot.growthMeasurements ++
        [{ height := h, diameter := dia, measuredAt := now, measuredBy := who,
           notes := notes }] ∧
    (addGrowthMeasurement lot h dia who notes now).growthMeasurements.length
      = lot.growthMeasurements.length + 1 ∧
    (addGrowthMeasurement lot h dia who notes now).currentHeight = h ∧
    (calls.foldl applyMeasurement lot).growthMeasurements
      = lot.growthMeasurements ++ calls.map entryOfCall := by
  refine ⟨rfl, by simp [addGrowthMeasurement], rfl, ?_⟩
  induction calls generalizing lot with
  | nil => simp
  | cons c cs ih =>
    simp [List.foldl_cons, ih, applyMeasurement, addGrowthMeasurement,
      entryOfCall]

/-- C10: `addGrowthMeasurement` with an `undefined` diameter leaves
`lot.diameter` unchanged, and every call leaves the identity, reference,
history and harvest fields untouched — only `currentHeight`, `diameter`
(when given), `growthMeasurements` and `updatedAt` may change. -/
theorem c10_add_measurement_frame (lot : Lot) (h : Rat) (dia : Option Rat)
    (who : Nat) (notes : Option String) (now : Int) :
    (addGrowthMeasurement lot h none who notes now).diameter = lot.diameter ∧
    (addGrowthMeasurement lot h dia who notes now).lotId = lot.lotId ∧
    (addGrowthMeasurement lot h dia who notes now).speciesId = lot.speciesId ∧
    (addGrowthMeasurement lot h dia who notes now).plantedDate
      = lot.plantedDate ∧
    (addGrowthMeasurement lot h dia who notes now).zone = lot.zone ∧
    (addGrowthMeasurement lot h dia who notes now).locationId
      = lot.locationId ∧
    (addGrowthMeasurement lot h dia who notes now).healthStatus
      = lot.healthStatus ∧
    (addGrowthMeasurement lot h dia who notes now).photos = lot.photos ∧
    (addGrowthMeasurement lot h dia who notes now).healthRecords
      = lot.healthRecords ∧
    (addGrowthMeasurement lot h dia who notes now).harvestInfo
      = lot.harvestInfo ∧
    (addGrowthMeasurement lot h dia who notes now).isActive = lot.isActive ∧
    (addGrowthMeasurement lot h dia who notes now).createdBy = lot.createdBy ∧
    (addGrowthMeasurement lot h dia who notes now).oid = lot.oid :=
  ⟨rfl, rfl, rfl, rfl, rfl, rfl, rfl, rfl, rfl, rfl, rfl, rfl, rfl⟩

/-- C9: `isReadyForHarvest` throws the species-required error exactly when
the species reference is unpopulated or the populated species' `harvestDays`
or `minHeight` is zero (falsy); in particular it throws for a lot whose
schema-valid species has `minHeight = 0` even when both thresholds are met
(here 100 days ≥ 90 and 40 ≥ 0), and `findReadyForHarvest` therefore
classifies that lot as not ready. -/
theorem c9_species_guard_throws :
    (∀ (lot : Lot) (now : Int),
      (∃ msg, isReadyForHarvest lot now = .error msg) ↔
        (lot.speciesId = none ∨
          ∃ s, lot.speciesId = some s ∧
            (s.harvestDays = 0 ∨ s.minHeight = 0))) ∧
    speciesSchemaValid zeroMinSpecies ∧
    ((zeroMinSpecies.harvestDays : Int) ≤
        getDaysFromPlanting 8640000000 zeroMinLot.plantedDate ∧
      zeroMinSpecies.minHeight ≤ zeroMinLot.currentHeight) ∧
    isReadyForHarvest zeroMinLot 8640000000
      = .error "Species information is required. Please populate speciesId." ∧
    findReadyForHarvest [zeroMinLot] 8640000000 = [] := by
  refine ⟨?_, by decide, by decide, rfl, by decide⟩
  intro lot now
  cases hsp : lot.speciesId with
  | none => simp [isReadyForHarvest, hsp]
  | some s =>
    by_cases hg : s.harvestDays = 0 ∨ s.minHeight = 0
    · simp [isReadyForHarvest, hsp, hg]
    · simp [isReadyForHarvest, hsp, hg]

/-- A stored species for the controller scenarios. -/
def speciesA : Species :=
  { sid := 7, name := "Oak", code := "OAK", minHeight := 10,
    harvestDays := 100, isActive := true }

/-- A stored lot with lot code `LOT-A` referencing `speciesA`. -/
def storedLotA : StoredLot :=
  { oid := 3, lotId := "LOT-A", speciesRef := 7, plantedDate := 0,
    zone := "Z1", locationId := "L1", currentHeight := 5, diameter := none,
    healthStatus := .good, createdBy := 1 }

/-- A database holding `speciesA` and `storedLotA`. -/
def dbA : DB := { species := [speciesA], lots := [storedLotA] }

/-- A create request that duplicates the stored lot code `LOT-A`. -/
def reqDup : CreateLotRequest :=
  { lotId := "LOT-A", speciesId := 7, plantedDate := 0, zone := "Z1",
    locationId := "L1", currentHeight := 1, diameter := none,
    healthStatus := .good }

/-- A create request whose species reference `9` resolves to nothing. -/
def reqNoSpecies : CreateLotRequest :=
  { reqDup with speciesId := 9, lotId := "LOT-B" }

/-- C5: `createLot` fails with the species 404 when the `speciesId` resolves
to no stored species, and with the duplicate-lot-code conflict when a lot
with the requested code already exists; in both cases the returned database
is the input database, so nothing was persisted. -/
theorem c5_create_lot_aborts (db : DB) (req : CreateLotRequest)
    (actor newOid : Nat) :
    (findSpeciesById db req.speciesId = none →
      createLot db req actor newOid = (.error .speciesNotFound, db)) ∧
    ((∃ s, findSpeciesById db req.speciesId = some s) →
      (∃ l, findLotByLotId db req.lotId = some l) →
      createLot db req actor newOid = (.error .duplicateLotId, db)) := by
  constructor
  · intro h
    simp [createLot, h]
  · rintro ⟨s, hs⟩ ⟨l, hl⟩
    simp [createLot, hs, hl]

/-- C5, witness: on `dbA`, the unresolvable species and the duplicate lot
code each abort with the corresponding error and leave the database as it
was. -/
theorem c5_create_lot_witness :
    createLot dbA reqNoSpecies 1 99 = (.error .speciesNotFound, dbA) ∧
    createLot dbA reqDup 1 99 = (.error .duplicateLotId, dbA) :=
  ⟨(c5_create_lot_aborts dbA reqNoSpecies 1 99).1 (by decide),
   (c5_create_lot_aborts dbA reqDup 1 99).2 ⟨speciesA, by decide⟩
     ⟨storedLotA, by decide⟩⟩

/-- C6: deleting an existing lot as a non-manager fails with the 403 and
leaves the database (hence the lot) untouched; deleting it as a manager
succeeds and the lot is afterwards unretrievable by its id. -/
theorem c6_delete_lot_role_gate (db : DB) (oid : Nat) (role : Role)
    (l : StoredLot) (hfound : findLotById db oid = some l) :
    (role ≠ Role.manager →
      deleteLot db oid role = (.error .notManager, db)) ∧
    (role = Role.manager →
      (deleteLot db oid role).1 = .ok () ∧
      findLotById (deleteLot db oid role).2 oid = none) := by
  constructor
  · intro hrole
    simp [deleteLot, hfound, hrole]
  · intro hrole
    subst hrole
    refine ⟨by simp [deleteLot, hfound], ?_⟩
    simp only [deleteLot, hfound]
    rw [if_neg (by simp)]
    simp only [findLotById, List.find?_eq_none]
    intro x hx
    have hmem := (List.mem_filter.mp hx).2
    simpa using hmem

/-- C6, witness: on `dbA`, a field worker's delete of lot 3 fails with the
403 and the database is unchanged; a manager's delete succeeds and lot 3 no
longer resolves. -/
theorem c6_delete_lot_witness :
    deleteLot dbA 3 Role.field = (.error .notManager, dbA) ∧
    (deleteLot dbA 3 Role.manager).1 = .ok () ∧
    findLotById (deleteLot dbA 3 Role.manager).2 3 = none :=
  ⟨(c6_delete_lot_role_gate dbA 3 Role.field storedLotA (by decide)).1
     (by decide),
   (c6_delete_lot_role_gate dbA 3 Role.manager storedLotA (by decide)).2 rfl⟩

/-- C7: the full QR payload is the JSON object with exactly the keys
`lotId, speciesName, speciesCode, plantedDate, zone, locationId, url` in that
order, and parsing it back yields the lot code, species code, zone and
location unchanged; the info QR encodes exactly the canonical lookup URL —
the same URL embedded in the full payload — and is independent of the
species reference. -/
theorem c7_qr_payload_roundtrip (protocol host : String) (lot : Lot)
    (s : Species) (sp : Option Species) :
    (qrDataJson (qrData protocol host lot s)).map Prod.fst
      = ["lotId", "speciesName", "speciesCode", "plantedDate", "zone",
         "locationId", "url"] ∧
    jsonLookup "lotId" (qrDataJson (qrData protocol host lot s))
      = some (.jstr lot.lotId) ∧
    jsonLookup "speciesCode" (qrDataJson (qrData protocol host lot s))
      = some (.jstr s.code) ∧
    jsonLookup "zone" (qrDataJson (qrData protocol host lot s))
      = some (.jstr lot.zone) ∧
    jsonLookup "locationId" (qrDataJson (qrData protocol host lot s))
      = some (.jstr lot.locationId) ∧
    generateLotInfoQRText protocol host lot = lotUrl protocol host lot ∧
    (qrData protocol host lot s).url = lotUrl protocol host lot ∧
    generateLotInfoQRText protocol host { lot with speciesId := sp }
      = generateLotInfoQRText protocol host lot :=
  ⟨rfl, rfl, rfl, rfl, rfl, rfl, rfl, rfl⟩

/-- C8: `generateBatchQRCodes` rejects a missing/non-array body, an empty
list and a list of more than 50 codes with the 400 validation responses —
independently of the stored lots and of the encoder, so before any QR code
is generated — and never returns a validation error for a list of 1 to 50
codes. -/
theorem c8_batch_size_validation (db : List Lot) (encodeOk : String → Bool)
    (protocol host : String) (lotIds : List String) :
    generateBatchQRCodes none db encodeOk protocol host
      = .invalidRequest "Please provide an array of lot IDs" ∧
    (lotIds.length = 0 →
      generateBatchQRCodes (some lotIds) db encodeOk protocol host
        = .invalidRequest "Please provide an array of lot IDs") ∧
    (lotIds.length > 50 →
      generateBatchQRCodes (some lotIds) db encodeOk protocol host
        = .invalidRequest "Maximum 50 lot IDs allowed per batch") ∧
    (1 ≤ lotIds.length → lotIds.length ≤ 50 →
      ∀ msg, generateBatchQRCodes (some lotIds) db encodeOk protocol host
        ≠ .invalidRequest msg) := by
  refine ⟨rfl, ?_, ?_, ?_⟩
  · intro h
    simp [generateBatchQRCodes, h]
  · intro h
    have h0 : ¬ lotIds.length = 0 := by omega
    simp [generateBatchQRCodes, h0, h]
  · intro h1 h50 msg
    have h0 : ¬ lotIds.length = 0 := by omega
    have hgt : ¬ lotIds.length > 50 := by omega
    simp only [generateBatchQRCodes, if_neg h0, if_neg hgt]
    split
    · simp
    · split <;> simp

/-- C8, witness: the three rejected shapes on a concrete empty store, and a
singleton list passing the size check. -/
theorem c8_batch_size_witness :
    generateBatchQRCodes none ([] : List Lot) (fun _ => true) "http" "farm"
      = .invalidRequest "Please provide an array of lot IDs" ∧
    generateBatchQRCodes (some []) ([] : List Lot) (fun _ => true) "http"
        "farm" = .invalidRequest "Please provide an array of lot IDs" ∧
    generateBatchQRCodes (some (List.replicate 51 "A")) ([] : List Lot)
        (fun _ => true) "http" "farm"
      = .invalidRequest "Maximum 50 lot IDs allowed per batch" ∧
    generateBatchQRCodes (some ["LOT-A"]) ([] : List Lot) (fun _ => true)
        "http" "farm" ≠ .invalidRequest "Please provide an array of lot IDs" :=
  ⟨(c8_batch_size_validation [] (fun _ => true) "http" "farm" []).1,
   (c8_batch_size_validation [] (fun _ => true) "http" "farm" []).2.1 rfl,
   (c8_batch_size_validation [] (fun _ => true) "http" "farm"
       (List.replicate 51 "A")).2.2.1 (by simp),
   (c8_batch_size_validation [] (fun _ => true) "http" "farm"
       ["LOT-A"]).2.2.2 (by decide) (by decide)
     "Please provide an array of lot IDs"⟩

/-- A species for the batch-QR scenarios. -/
def batchSpecies : Species :=
  { sid := 21, name := "Mango", code := "MNG", minHeight := 30,
    harvestDays := 120, isActive := true }

/-- A stored, populated lot for the batch-QR scenarios. -/
def batchLot (oidv : Nat) (code : String) : Lot :=
  { oid := oidv, lotId := code, speciesId := some batchSpecies,
    plantedDate := 0, zone := "Z1", locationId := "L1", currentHeight := 10,
    diameter := none, healthStatus := .good, photos := [],
    growthMeasurements := [], healthRecords := [],
    harvestInfo := defaultHarvestInfo, isActive := true, createdBy := 1,
    updatedAt := 0 }

/-- A lot collection holding exactly `LOT-A` and `LOT-B`. -/
def batchDb : List Lot := [batchLot 1 "LOT-A", batchLot 2 "LOT-B"]

/-- The per-lot loop of `generateBatchQRCodes` never aborts once every loaded
lot has a populated species: it yields one entry per loaded lot, in order,
carrying that lot's code, and the entry is the error marker exactly when the
encoder fails on that lot's serialized payload. -/
theorem buildQrItems_total (encodeOk : String → Bool) (protocol host : String)
    (lots : List Lot) (hpop : ∀ l ∈ lots, ¬ l.speciesId = none) :
    ∃ items, buildQrItems encodeOk protocol host lots = some items ∧
      items.map QrItem.itemLotId = lots.map Lot.lotId ∧
      ∀ p ∈ items.zip lots, ∃ s, p.2.speciesId = some s ∧
        p.1 = (if encodeOk (qrCodeTextOf protocol host p.2 s)
               then QrItem.success p.2.lotId (qrData protocol host p.2 s)
               else QrItem.failure p.2.lotId (qrData protocol host p.2 s)) := by
  induction lots with
  | nil => exact ⟨[], rfl, rfl, by simp⟩
  | cons lot rest ih =>
    obtain ⟨s, hs⟩ : ∃ s, lot.speciesId = some s := by
      cases h : lot.speciesId with
      | none => exact absurd h (hpop lot (List.mem_cons_self _ _))
      | some s => exact ⟨s, rfl⟩
    obtain ⟨items, hb, hmap, hzip⟩ :=
      ih (fun l hl => hpop l (List.mem_cons_of_mem _ hl))
    refine ⟨(if encodeOk (qrCodeTextOf protocol host lot s)
             then QrItem.success lot.lotId (qrData protocol host lot s)
             else QrItem.failure lot.lotId (qrData protocol host lot s))
            :: items, ?_, ?_, ?_⟩
    · simp [buildQrItems, hs, hb, qrCodeTextOf]
    · have hhd : QrItem.itemLotId
          (if encodeOk (qrCodeTextOf protocol host lot s)
           then QrItem.success lot.lotId (qrData protocol host lot s)
           else QrItem.failure lot.lotId (qrData protocol host lot s))
          = lot.lotId := by split <;> rfl
      simp [hmap, hhd]
    · intro p hp
      rw [List.zip_cons_cons] at hp
      rcases List.mem_cons.mp hp with rfl | hp'
      · exact ⟨s, hs, rfl⟩
      · exact hzip p hp'

/-- C1, counterexample: the batch request `["LOT-A", "LOT-B", "LOT-X"]`
against a store holding only `LOT-A` and `LOT-B` (one unknown code among
three), with an encoder that always succeeds, returns TWO results and no
error marker — the unknown code is silently dropped — refuting "three
results where exactly one carries an error marker". -/
theorem c1_counterexample :
    generateBatchQRCodes (some ["LOT-A", "LOT-B", "LOT-X"]) batchDb
        (fun _ => true) "http" "farm"
      = .ok [QrItem.success "LOT-A"
               (qrData "http" "farm" (batchLot 1 "LOT-A") batchSpecies),
             QrItem.success "LOT-B"
               (qrData "http" "farm" (batchLot 2 "LOT-B") batchSpecies)] ∧
    ¬ ∃ items, generateBatchQRCodes (some ["LOT-A", "LOT-B", "LOT-X"]) batchDb
          (fun _ => true) "http" "farm" = .ok items ∧
        items.length = 3 ∧ (items.filter QrItem.isFailure).length = 1 := by
  have hres : generateBatchQRCodes (some ["LOT-A", "LOT-B", "LOT-X"]) batchDb
      (fun _ => true) "http" "farm"
    = .ok [QrItem.success "LOT-A"
             (qrData "http" "farm" (batchLot 1 "LOT-A") batchSpecies),
           QrItem.success "LOT-B"
             (qrData "http" "farm" (batchLot 2 "LOT-B") batchSpecies)] := rfl
  refine ⟨hres, ?_⟩
  rintro ⟨items, h, h3, -⟩
  rw [hres] at h
  injection h with h
  rw [← h] at h3
  simp at h3

/-- C1, amended: for every batch request with 1 to 50 lot codes at least one
of which matches a stored lot (otherwise the whole batch is a 404), all
matched lots having a populated species reference, the result set contains
exactly one entry per MATCHED lot code, in store order — unknown codes
contribute no entry and do not abort the batch — and each entry is the error
marker exactly when the encoder fails on that lot's payload, so one item's
encoding failure never aborts the others. -/
theorem c1_batch_one_entry_per_found_lot (lotIds : List String)
    (db : List Lot) (encodeOk : String → Bool) (protocol host : String)
    (hne : 1 ≤ lotIds.length) (hle : lotIds.length ≤ 50)
    (hfound : ¬ (db.filter (fun l => lotIds.contains l.lotId)).length = 0)
    (hpop : ∀ l ∈ db.filter (fun l => lotIds.contains l.lotId),
      ¬ l.speciesId = none) :
    ∃ items, generateBatchQRCodes (some lotIds) db encodeOk protocol host
        = .ok items ∧
      items.map QrItem.itemLotId
        = (db.filter (fun l => lotIds.contains l.lotId)).map Lot.lotId ∧
      ∀ p ∈ items.zip (db.filter (fun l => lotIds.contains l.lotId)),
        ∃ s, p.2.speciesId = some s ∧
          p.1 = (if encodeOk (qrCodeTextOf protocol host p.2 s)
                 then QrItem.success p.2.lotId (qrData protocol host p.2 s)
                 else QrItem.failure p.2.lotId (qrData protocol host p.2 s)) := by
  obtain ⟨items, hb, hmap, hzip⟩ :=
    buildQrItems_total encodeOk protocol host
      (db.filter (fun l => lotIds.contains l.lotId)) hpop
  refine ⟨items, ?_, hmap, hzip⟩
  have h0 : ¬ lotIds.length = 0 := by omega
  have hgt : ¬ lotIds.length > 50 := by omega
  simp only [generateBatchQRCodes, if_neg h0, if_neg hgt, if_neg hfound, hb]

/-- C1, witness: the amended statement evaluated at the two-lot store and the
three-code request with an always-succeeding encoder. -/
theorem c1_batch_witness :
    ∃ items, generateBatchQRCodes (some ["LOT-A", "LOT-B", "LOT-X"]) batchDb
        (fun _ => true) "http" "farm" = .ok items ∧
      items.map QrItem.itemLotId
        = (batchDb.filter
            (fun l => ["LOT-A", "LOT-B", "LOT-X"].contains l.lotId)).map
              Lot.lotId ∧
      ∀ p ∈ items.zip (batchDb.filter
          (fun l => ["LOT-A", "LOT-B", "LOT-X"].contains l.lotId)),
        ∃ s, p.2.speciesId = some s ∧
          p.1 = (if (fun _ => true : String → Bool)
                     (qrCodeTextOf "http" "farm" p.2 s)
                 then QrItem.success p.2.lotId (qrData "http" "farm" p.2 s)
                 else QrItem.failure p.2.lotId (qrData "http" "farm" p.2 s)) :=
  c1_batch_one_entry_per_found_lot ["LOT-A", "LOT-B", "LOT-X"] batchDb
    (fun _ => true) "http" "farm" (by decide) (by decide) (by decide)
    (by decide)
